import Mathlib

/-!
Verification of the CVD process simulator core (`src/main.py`, class `CVDState`).

The physical quantities are Python floats; we model them as exact rationals
(`ℚ`), so every "within floating-point tolerance" statement is settled as an
exact identity of the rational-valued model.  The stateful methods of
`CVDState` are modelled as explicit state-passing functions, and the UI
(sliders, the partial-pressure text input and the radio group) as a record of
control values; writing a value back to a control goes through the
fixed-decimal formatting the source applies (`f"{x:.1f}"` etc.), modelled by
decimal rounding with ties to even.
-/

/-- Round a rational to the nearest integer, ties to even — the rounding used
when a float is formatted with a fixed number of decimals. -/
def roundHalfEven (q : ℚ) : ℤ :=
  let n := ⌊q⌋
  let r := q - n
  if r < 1 / 2 then n
  else if 1 / 2 < r then n + 1
  else if n % 2 = 0 then n else n + 1

/-- Writing a value to a control with `f"{x:.dpf}"` and reading it back with
`float(...)`: the value is rounded to `dp` decimal places. -/
def formatFixed (dp : ℕ) (q : ℚ) : ℚ :=
  (roundHalfEven (q * 10 ^ dp) : ℚ) / 10 ^ dp

/-- Pure body of `CVDState.calculate_c2h2_pp` (main.py lines 80-87):
the governing equation evaluated forward, `0` on the degenerate region. -/
def compute_c2h2_pp (flow_c2h2 flow_ar p_total p_contam : ℚ) : ℚ :=
  let process_pressure := p_total - p_contam
  let total_flow := flow_c2h2 + flow_ar
  if total_flow > 0 ∧ process_pressure > 0 then
    (flow_c2h2 / total_flow) * process_pressure
  else 0

/-- Pure body of `CVDState.solve_for_total_pressure` (main.py lines 89-95). -/
def solve_total_pressure (flow_c2h2 flow_ar p_contam target_pp : ℚ) : ℚ :=
  if flow_c2h2 > 0 ∧ target_pp > 0 then
    let total_flow := flow_c2h2 + flow_ar
    target_pp * (total_flow / flow_c2h2) + p_contam
  else p_contam

/-- Pure body of `CVDState.solve_for_c2h2_flow` (main.py lines 97-104). -/
def solve_c2h2_flow (p_total p_contam flow_ar target_pp : ℚ) : ℚ :=
  let process_pressure := p_total - p_contam
  if target_pp > 0 ∧ process_pressure > target_pp then
    (target_pp * flow_ar) / (process_pressure - target_pp)
  else 0

/-- Pure body of `CVDState.solve_for_ar_flow` (main.py lines 106-113). -/
def solve_ar_flow (flow_c2h2 p_total p_contam target_pp : ℚ) : ℚ :=
  let process_pressure := p_total - p_contam
  if flow_c2h2 > 0 ∧ target_pp > 0 ∧ process_pressure > target_pp then
    flow_c2h2 * (process_pressure / target_pp - 1)
  else 0

/-- The control values the simulator reads: the four sliders, the C2H2
partial-pressure text input (`none` when unparsable), the checked radio of the
`locked_param` group, and the argon slider's `min`/`max` attributes used by
`update_graph`. -/
structure UIControls where
  c2h2_flow_slider : ℚ
  ar_flow_slider : ℚ
  total_pressure_slider : ℚ
  contaminant_pp_slider : ℚ
  c2h2_pp_input : Option ℚ
  locked_param : String
  ar_min : ℚ
  ar_max : ℚ

/-- The state fields of the `CVDState` object. -/
structure CVDState where
  c2h2_flow : ℚ
  ar_flow : ℚ
  total_pressure : ℚ
  contaminant_pp : ℚ
  target_c2h2_pp : ℚ
  calculated_param : String
  c2h2_pp : ℚ

/-- The target partial pressure `read_ui` obtains from the text input:
`float(...)` of its value, defaulting to `0.25` when unparsable. -/
def readTarget (ui : UIControls) : ℚ :=
  (ui.c2h2_pp_input).getD 0.25

/-- Method `CVDState.read_ui` (main.py lines 32-45): pull every control value into
the state; `c2h2_pp` is left as it was. -/
def CVDState.read_ui (st : CVDState) (ui : UIControls) : CVDState :=
  { st with
    c2h2_flow := ui.c2h2_flow_slider
    ar_flow := ui.ar_flow_slider
    total_pressure := ui.total_pressure_slider
    contaminant_pp := ui.contaminant_pp_slider
    target_c2h2_pp := readTarget ui
    calculated_param := ui.locked_param }

/-- Method `CVDState.calculate_c2h2_pp` (main.py lines 80-87) as a state update. -/
def CVDState.calculate_c2h2_pp (st : CVDState) : CVDState :=
  { st with c2h2_pp :=
      compute_c2h2_pp st.c2h2_flow st.ar_flow st.total_pressure st.contaminant_pp }

/-- Method `CVDState.solve_for_total_pressure` (main.py lines 89-95) as a state update. -/
def CVDState.solve_for_total_pressure (st : CVDState) : CVDState :=
  { st with total_pressure :=
      solve_total_pressure st.c2h2_flow st.ar_flow st.contaminant_pp st.target_c2h2_pp }

/-- Method `CVDState.solve_for_c2h2_flow` (main.py lines 97-104) as a state update. -/
def CVDState.solve_for_c2h2_flow (st : CVDState) : CVDState :=
  { st with c2h2_flow :=
      solve_c2h2_flow st.total_pressure st.contaminant_pp st.ar_flow st.target_c2h2_pp }

/-- Method `CVDState.solve_for_ar_flow` (main.py lines 106-113) as a state update. -/
def CVDState.solve_for_ar_flow (st : CVDState) : CVDState :=
  { st with ar_flow :=
      solve_ar_flow st.c2h2_flow st.total_pressure st.contaminant_pp st.target_c2h2_pp }

/-- Method `CVDState.update_simulation` (main.py lines 116-133): read the UI,
dispatch on `calculated_param` (the `c2h2_pp` choice aliases to solving for
total pressure), then always recompute `c2h2_pp`.  The UI/graph writes do not
touch the physical state fields and are modelled separately. -/
def CVDState.update_simulation (st : CVDState) (ui : UIControls) : CVDState :=
  let st1 := st.read_ui ui
  let st2 :=
    if st1.calculated_param = "total_pressure" ∨ st1.calculated_param = "c2h2_pp" then
      st1.solve_for_total_pressure
    else if st1.calculated_param = "c2h2_flow" then
      st1.solve_for_c2h2_flow
    else if st1.calculated_param = "ar_flow" then
      st1.solve_for_ar_flow
    else st1
  st2.calculate_c2h2_pp

/-- Method `CVDState.update_ui` (main.py lines 47-74): write each state value back to
its control at fixed decimal precision (flows 1 decimal, total pressure 2,
contaminant and C2H2 partial pressure 3); the text input shows the target
unless `calculated_param = "c2h2_pp"`, in which case it shows the computed
value.  The radio group and the slider bounds are not written. -/
def CVDState.update_ui (st : CVDState) (ui : UIControls) : UIControls :=
  { ui with
    c2h2_flow_slider := formatFixed 1 st.c2h2_flow
    ar_flow_slider := formatFixed 1 st.ar_flow
    total_pressure_slider := formatFixed 2 st.total_pressure
    contaminant_pp_slider := formatFixed 3 st.contaminant_pp
    c2h2_pp_input := some (formatFixed 3
      (if st.calculated_param ≠ "c2h2_pp" then st.target_c2h2_pp else st.c2h2_pp)) }

/-- Model of `np.linspace lo hi n`: evenly spaced samples from `lo` to `hi`
inclusive. -/
def np_linspace (lo hi : ℚ) (n : ℕ) : List ℚ :=
  (List.range n).map fun i : ℕ => lo + (hi - lo) * (i : ℚ) / ((n - 1 : ℕ) : ℚ)

/-- Method `CVDState.update_graph` (main.py lines 135-160): sweep argon flow over
`[max(ar_min, 1), ar_max]` with 50 samples and pair each with the pressure
required to hold the target partial pressure, falling back to the contaminant
floor. -/
def CVDState.update_graph (st : CVDState) (ui : UIControls) : List (ℚ × ℚ) :=
  let ar_range := np_linspace (max ui.ar_min 1) ui.ar_max 50
  ar_range.map fun ar_val =>
    (ar_val,
      if st.c2h2_flow > 0 ∧ st.target_c2h2_pp > 0 then
        st.target_c2h2_pp * ((st.c2h2_flow + ar_val) / st.c2h2_flow) + st.contaminant_pp
      else st.contaminant_pp)

/-- One full interaction step: `update_simulation` followed by the UI
write-back, returning the new state together with the controls a subsequent
`read_ui` would see. -/
def step (st : CVDState) (ui : UIControls) : CVDState × UIControls :=
  let st1 := st.update_simulation ui
  (st1, st1.update_ui ui)


/-- The state fields as `CVDState.__init__` leaves them before the first
`update_simulation` (physical quantities default to the page's initial
controls; `calculated_param` starts as the aliased `c2h2_pp` choice and the
partial pressure at its `0.250` default).  Used as a concrete starting state
below. -/
def stDefault : CVDState := ⟨0, 0, 0, 0, 0, "c2h2_pp", 0.25⟩

/-- Concrete controls whose argon flow `3.14` is not representable at the one
decimal the slider write-back keeps. -/
def uiPi : UIControls := ⟨5, 157/50, 1, 1/100, some (1/4), "total_pressure", 1, 100⟩

/-- Concrete controls representable at the write-back precision of every
control. -/
def uiBasic : UIControls := ⟨5, 45, 1, 1/100, some (1/4), "total_pressure", 1, 100⟩

/-- Concrete controls for the zero-acetylene-flow scenario of the spec. -/
def uiZeroFlow : UIControls := ⟨0, 50, 1, 0.02, some 0.25, "total_pressure", 1, 100⟩

/-- Concrete controls carrying a negative contaminant partial pressure. -/
def uiNegContam : UIControls := ⟨0, 0, 1, -(1/2), some (1/4), "total_pressure", 1, 100⟩

lemma update_mode_tp (st : CVDState) (ui : UIControls)
    (h : ui.locked_param = "total_pressure" ∨ ui.locked_param = "c2h2_pp") :
    st.update_simulation ui =
      { c2h2_flow := ui.c2h2_flow_slider
        ar_flow := ui.ar_flow_slider
        total_pressure := solve_total_pressure ui.c2h2_flow_slider ui.ar_flow_slider
          ui.contaminant_pp_slider (readTarget ui)
        contaminant_pp := ui.contaminant_pp_slider
        target_c2h2_pp := readTarget ui
        calculated_param := ui.locked_param
        c2h2_pp := compute_c2h2_pp ui.c2h2_flow_slider ui.ar_flow_slider
          (solve_total_pressure ui.c2h2_flow_slider ui.ar_flow_slider
            ui.contaminant_pp_slider (readTarget ui))
          ui.contaminant_pp_slider } := by
  simp [CVDState.update_simulation, CVDState.read_ui, CVDState.solve_for_total_pressure,
    CVDState.calculate_c2h2_pp, h]

lemma update_mode_c2h2_flow (st : CVDState) (ui : UIControls)
    (h : ui.locked_param = "c2h2_flow") :
    st.update_simulation ui =
      { c2h2_flow := solve_c2h2_flow ui.total_pressure_slider ui.contaminant_pp_slider
          ui.ar_flow_slider (readTarget ui)
        ar_flow := ui.ar_flow_slider
        total_pressure := ui.total_pressure_slider
        contaminant_pp := ui.contaminant_pp_slider
        target_c2h2_pp := readTarget ui
        calculated_param := ui.locked_param
        c2h2_pp := compute_c2h2_pp
          (solve_c2h2_flow ui.total_pressure_slider ui.contaminant_pp_slider
            ui.ar_flow_slider (readTarget ui))
          ui.ar_flow_slider ui.total_pressure_slider ui.contaminant_pp_slider } := by
  simp [CVDState.update_simulation, CVDState.read_ui, CVDState.solve_for_c2h2_flow,
    CVDState.calculate_c2h2_pp, h]

lemma update_mode_ar_flow (st : CVDState) (ui : UIControls)
    (h : ui.locked_param = "ar_flow") :
    st.update_simulation ui =
      { c2h2_flow := ui.c2h2_flow_slider
        ar_flow := solve_ar_flow ui.c2h2_flow_slider ui.total_pressure_slider
          ui.contaminant_pp_slider (readTarget ui)
        total_pressure := ui.total_pressure_slider
        contaminant_pp := ui.contaminant_pp_slider
        target_c2h2_pp := readTarget ui
        calculated_param := ui.locked_param
        c2h2_pp := compute_c2h2_pp ui.c2h2_flow_slider
          (solve_ar_flow ui.c2h2_flow_slider ui.total_pressure_slider
            ui.contaminant_pp_slider (readTarget ui))
          ui.total_pressure_slider ui.contaminant_pp_slider } := by
  simp [CVDState.update_simulation, CVDState.read_ui, CVDState.solve_for_ar_flow,
    CVDState.calculate_c2h2_pp, h]

lemma update_mode_other (st : CVDState) (ui : UIControls)
    (h1 : ui.locked_param ≠ "total_pressure") (h2 : ui.locked_param ≠ "c2h2_pp")
    (h3 : ui.locked_param ≠ "c2h2_flow") (h4 : ui.locked_param ≠ "ar_flow") :
    st.update_simulation ui =
      { c2h2_flow := ui.c2h2_flow_slider
        ar_flow := ui.ar_flow_slider
        total_pressure := ui.total_pressure_slider
        contaminant_pp := ui.contaminant_pp_slider
        target_c2h2_pp := readTarget ui
        calculated_param := ui.locked_param
        c2h2_pp := compute_c2h2_pp ui.c2h2_flow_slider ui.ar_flow_slider
          ui.total_pressure_slider ui.contaminant_pp_slider } := by
  simp [CVDState.update_simulation, CVDState.read_ui, CVDState.calculate_c2h2_pp,
    h1, h2, h3, h4]

lemma calculate_consistent (s : CVDState) :
    (s.calculate_c2h2_pp).c2h2_pp =
      compute_c2h2_pp (s.calculate_c2h2_pp).c2h2_flow (s.calculate_c2h2_pp).ar_flow
        (s.calculate_c2h2_pp).total_pressure (s.calculate_c2h2_pp).contaminant_pp := by
  simp [CVDState.calculate_c2h2_pp]

lemma solve_tp_floor (f a pc tgt : ℚ) (h : ¬(0 < f ∧ 0 < tgt)) :
    solve_total_pressure f a pc tgt = pc := by
  simp only [solve_total_pressure]
  rw [if_neg]
  exact fun hc => h ⟨hc.1, hc.2⟩

lemma solve_tp_lower (f a pc tgt : ℚ) (ha : 0 ≤ a) (hf : 0 < f) (htgt : 0 < tgt) :
    tgt + pc ≤ solve_total_pressure f a pc tgt := by
  simp only [solve_total_pressure]
  rw [if_pos ⟨hf, htgt⟩]
  have h1 : (1:ℚ) ≤ (f + a) / f := (one_le_div hf).mpr (by linarith)
  nlinarith [mul_le_mul_of_nonneg_left h1 htgt.le]

lemma compute_nonneg (f a pt pc : ℚ) (hf : 0 ≤ f) : 0 ≤ compute_c2h2_pp f a pt pc := by
  simp only [compute_c2h2_pp]
  split_ifs with h
  · exact mul_nonneg (div_nonneg hf h.1.le) h.2.le
  · exact le_refl 0

lemma solve_tp_nonneg (f a pc tgt : ℚ) (ha : 0 ≤ a) (hpc : 0 ≤ pc) :
    0 ≤ solve_total_pressure f a pc tgt := by
  simp only [solve_total_pressure]
  split_ifs with h
  · have h1 : 0 ≤ (f + a) / f := div_nonneg (by linarith [h.1]) h.1.le
    have := mul_nonneg h.2.le h1
    linarith
  · exact hpc

lemma solve_c2h2_nonneg (pt pc a tgt : ℚ) (ha : 0 ≤ a) :
    0 ≤ solve_c2h2_flow pt pc a tgt := by
  simp only [solve_c2h2_flow]
  split_ifs with h
  · exact div_nonneg (mul_nonneg h.1.le ha) (by linarith [h.2])
  · exact le_refl 0

lemma solve_ar_nonneg (f pt pc tgt : ℚ) : 0 ≤ solve_ar_flow f pt pc tgt := by
  simp only [solve_ar_flow]
  split_ifs with h
  · obtain ⟨hf, htgt, hlt⟩ := h
    have h1 : (1:ℚ) ≤ (pt - pc) / tgt := (one_le_div htgt).mpr (by linarith)
    exact mul_nonneg hf.le (by linarith)
  · exact le_refl 0

lemma compute_after_solve (f a pc tgt : ℚ) (hf : 0 < f) (ha : 0 ≤ a) (htgt : 0 < tgt) :
    compute_c2h2_pp f a (solve_total_pressure f a pc tgt) pc = tgt := by
  have htf : (0:ℚ) < f + a := by linarith
  have hsolve : solve_total_pressure f a pc tgt = tgt * ((f + a) / f) + pc := by
    simp only [solve_total_pressure]
    rw [if_pos ⟨hf, htgt⟩]
  have hdiv : 0 < (f + a) / f := div_pos htf hf
  have hproc : 0 < solve_total_pressure f a pc tgt - pc := by
    rw [hsolve]
    have := mul_pos htgt hdiv
    linarith
  simp only [compute_c2h2_pp]
  rw [if_pos ⟨htf, hproc⟩, hsolve]
  field_simp
  ring

/-- Claim C1: after every call to `update_simulation`, for every combination
of control inputs and every `calculated_param` mode, the stored `c2h2_pp`
equals `compute_c2h2_pp` applied to the final values of `c2h2_flow`,
`ar_flow`, `total_pressure` and `contaminant_pp` (exactly, in the rational
model). -/
theorem c2h2_pp_consistent_after_update (st : CVDState) (ui : UIControls) :
    (st.update_simulation ui).c2h2_pp =
      compute_c2h2_pp (st.update_simulation ui).c2h2_flow (st.update_simulation ui).ar_flow
        (st.update_simulation ui).total_pressure (st.update_simulation ui).contaminant_pp :=
  calculate_consistent _

/-- Claim C2: for every set of control inputs, an update with
`calculated_param = "c2h2_pp"` leaves `c2h2_flow`, `ar_flow`,
`contaminant_pp` and `target_c2h2_pp` at the values read from the controls,
writes `total_pressure` through `solve_total_pressure`, and produces the same
physical quantities as the `"total_pressure"` dispatch. -/
theorem c2h2_pp_mode_solves_total_pressure (st : CVDState) (ui : UIControls) :
    (st.update_simulation { ui with locked_param := "c2h2_pp" }).c2h2_flow
        = ui.c2h2_flow_slider ∧
      (st.update_simulation { ui with locked_param := "c2h2_pp" }).ar_flow
        = ui.ar_flow_slider ∧
      (st.update_simulation { ui with locked_param := "c2h2_pp" }).contaminant_pp
        = ui.contaminant_pp_slider ∧
      (st.update_simulation { ui with locked_param := "c2h2_pp" }).target_c2h2_pp
        = readTarget ui ∧
      (st.update_simulation { ui with locked_param := "c2h2_pp" }).total_pressure
        = solve_total_pressure ui.c2h2_flow_slider ui.ar_flow_slider
            ui.contaminant_pp_slider (readTarget ui) ∧
      (st.update_simulation { ui with locked_param := "c2h2_pp" }).c2h2_flow
        = (st.update_simulation { ui with locked_param := "total_pressure" }).c2h2_flow ∧
      (st.update_simulation { ui with locked_param := "c2h2_pp" }).ar_flow
        = (st.update_simulation { ui with locked_param := "total_pressure" }).ar_flow ∧
      (st.update_simulation { ui with locked_param := "c2h2_pp" }).total_pressure
        = (st.update_simulation { ui with locked_param := "total_pressure" }).total_pressure := by
  rw [update_mode_tp st { ui with locked_param := "c2h2_pp" } (Or.inr rfl),
    update_mode_tp st { ui with locked_param := "total_pressure" } (Or.inl rfl)]
  simp [readTarget]

/-- Claim C3: the forward/inverse round-trip.  For `flow_c2h2 > 0`,
`flow_ar >= 0`, `p_total > p_contam >= 0`, solving total pressure for the
computed partial pressure returns `p_total` — exactly, in the rational model,
hence within any relative tolerance. -/
theorem solve_total_pressure_round_trip (f a pt pc : ℚ) (hf : 0 < f) (ha : 0 ≤ a) (hpc : 0 ≤ pc) (hpt : pc < pt) :
    solve_total_pressure f a pc (compute_c2h2_pp f a pt pc) = pt := by
  have hproc : (0:ℚ) < pt - pc := by linarith
  have htf : (0:ℚ) < f + a := by linarith
  have hpp : compute_c2h2_pp f a pt pc = f / (f + a) * (pt - pc) := by
    simp only [compute_c2h2_pp]
    rw [if_pos ⟨htf, hproc⟩]
  have hpppos : 0 < compute_c2h2_pp f a pt pc := by
    rw [hpp]; positivity
  simp only [solve_total_pressure]
  rw [if_pos ⟨hf, hpppos⟩, hpp]
  have hf0 : f ≠ 0 := hf.ne'
  have htf0 : f + a ≠ 0 := htf.ne'
  field_simp

/-- Witness for `solve_total_pressure_round_trip` at
`flow_c2h2 = 5, flow_ar = 45, p_total = 1, p_contam = 1/100`. -/
theorem solve_total_pressure_round_trip_witness :
    ((0:ℚ) < 5 ∧ (0:ℚ) ≤ 45 ∧ (0:ℚ) ≤ 1/100 ∧ (1:ℚ)/100 < 1) ∧
      solve_total_pressure 5 45 (1/100) (compute_c2h2_pp 5 45 1 (1/100)) = 1 :=
  ⟨⟨by norm_num, by norm_num, by norm_num, by norm_num⟩,
    solve_total_pressure_round_trip 5 45 1 (1/100) (by norm_num) (by norm_num) (by norm_num)
      (by norm_num)⟩

/-- Claim C4, counterexample: at `p_total = 1, p_contam = 0, flow_ar = 0,
target_pp = 1/4` the guard of `solve_c2h2_flow` admits the input (the target
is positive and below the process pressure), yet the solver returns `0` and
recomputing the partial pressure gives `0`, not the target. -/
theorem flow_round_trip_fails_at_zero_ar :
    ((1:ℚ)/4 > 0 ∧ (1:ℚ) - 0 > 1/4) ∧
      solve_c2h2_flow 1 0 0 (1/4) = 0 ∧
      compute_c2h2_pp (solve_c2h2_flow 1 0 0 (1/4)) 0 1 0 ≠ (1/4 : ℚ) := by
  norm_num [solve_c2h2_flow, compute_c2h2_pp]

/-- Claim C4, amended: the solve-then-recompute round-trip for
`solve_c2h2_flow` holds on the guard's domain provided additionally
`flow_ar > 0`; for `solve_ar_flow` it holds on the guard's domain exactly
(`flow_c2h2 > 0`, `target_pp > 0`, `process_pressure > target_pp`). -/
theorem flow_round_trip_amended (pt pc a f tgt : ℚ) :
    (0 < tgt → tgt < pt - pc → 0 < a →
      compute_c2h2_pp (solve_c2h2_flow pt pc a tgt) a pt pc = tgt) ∧
    (0 < f → 0 < tgt → tgt < pt - pc →
      compute_c2h2_pp f (solve_ar_flow f pt pc tgt) pt pc = tgt) := by
  constructor
  · intro htgt hlt ha
    have hd : (0:ℚ) < pt - pc - tgt := by linarith
    have hproc : (0:ℚ) < pt - pc := by linarith
    have hsolve : solve_c2h2_flow pt pc a tgt = tgt * a / (pt - pc - tgt) := by
      simp only [solve_c2h2_flow]
      rw [if_pos ⟨htgt, hlt⟩]
    have hfpos : 0 < solve_c2h2_flow pt pc a tgt := by
      rw [hsolve]; positivity
    have htf : 0 < solve_c2h2_flow pt pc a tgt + a := by linarith
    simp only [compute_c2h2_pp]
    rw [if_pos ⟨htf, hproc⟩, hsolve]
    have h1 : pt - pc - tgt ≠ 0 := hd.ne'
    have h2 : a ≠ 0 := ha.ne'
    field_simp
    ring
  · intro hf htgt hlt
    have hproc : (0:ℚ) < pt - pc := by linarith
    have hsolve : solve_ar_flow f pt pc tgt = f * ((pt - pc) / tgt - 1) := by
      simp only [solve_ar_flow]
      rw [if_pos ⟨hf, htgt, hlt⟩]
    have hq : (1:ℚ) < (pt - pc) / tgt := (one_lt_div htgt).mpr hlt
    have harpos : 0 < solve_ar_flow f pt pc tgt := by
      rw [hsolve]
      have : 0 < (pt - pc) / tgt - 1 := by linarith
      positivity
    have htf : 0 < f + solve_ar_flow f pt pc tgt := by linarith
    simp only [compute_c2h2_pp]
    rw [if_pos ⟨htf, hproc⟩, hsolve]
    have h2 : tgt ≠ 0 := htgt.ne'
    have h3 : f ≠ 0 := hf.ne'
    have h4 : pt - pc ≠ 0 := hproc.ne'
    have key : f + f * ((pt - pc) / tgt - 1) = f * (pt - pc) / tgt := by
      field_simp
      ring
    rw [key, div_div_eq_mul_div, div_mul_eq_mul_div, div_eq_iff (mul_ne_zero h3 h4)]
    ring

/-- Witness for `flow_round_trip_amended` at
`p_total = 1, p_contam = 0, flow_ar = 45, flow_c2h2 = 5, target_pp = 1/4`. -/
theorem flow_round_trip_amended_witness :
    compute_c2h2_pp (solve_c2h2_flow 1 0 45 (1/4)) 45 1 0 = 1/4 ∧
      compute_c2h2_pp 5 (solve_ar_flow 5 1 0 (1/4)) 1 0 = 1/4 :=
  ⟨(flow_round_trip_amended 1 0 45 5 (1/4)).1 (by norm_num) (by norm_num) (by norm_num),
   (flow_round_trip_amended 1 0 45 5 (1/4)).2 (by norm_num) (by norm_num) (by norm_num)⟩

/-- Claim C5, counterexample: with an argon flow of `3.14`, the first update
stores `3.14` but writes `3.1` back to the slider, so the second update —
reading back exactly what the first wrote — produces a different state:
`update` is not idempotent for arbitrary control inputs. -/
theorem update_not_idempotent_under_rounding :
    (step (step stDefault uiPi).1 (step stDefault uiPi).2).1 ≠ (step stDefault uiPi).1 := by
  intro h
  have h2 := congrArg CVDState.ar_flow h
  simp only [step, CVDState.update_ui, update_mode_tp stDefault uiPi (Or.inl rfl)] at h2
  rw [update_mode_tp _ _ (Or.inl rfl)] at h2
  simp only [uiPi] at h2
  norm_num [formatFixed, roundHalfEven] at h2

/-- Claim C5, amended: a second update reading back what the first wrote
yields an identical state provided every control value is exactly
representable at its write-back precision (flows one decimal, total pressure
two, contaminant and target partial pressures three) and, in the aliased
`"c2h2_pp"` mode, the solver guard holds (positive acetylene flow and target,
non-negative argon flow) so writing the computed partial pressure back into
the target input reproduces the target. -/
theorem update_idempotent_on_representable_inputs (st : CVDState) (ui : UIControls)
    (hf : formatFixed 1 ui.c2h2_flow_slider = ui.c2h2_flow_slider)
    (ha : formatFixed 1 ui.ar_flow_slider = ui.ar_flow_slider)
    (htp : formatFixed 2 ui.total_pressure_slider = ui.total_pressure_slider)
    (hpc : formatFixed 3 ui.contaminant_pp_slider = ui.contaminant_pp_slider)
    (htgt : formatFixed 3 (readTarget ui) = readTarget ui)
    (hmode : ui.locked_param = "c2h2_pp" →
      0 < ui.c2h2_flow_slider ∧ 0 ≤ ui.ar_flow_slider ∧ 0 < readTarget ui) :
    (step (step st ui).1 (step st ui).2).1 = (step st ui).1 := by
  show ((st.update_simulation ui).update_simulation
    ((st.update_simulation ui).update_ui ui)) = st.update_simulation ui
  simp only [readTarget] at htgt hmode
  by_cases h1 : ui.locked_param = "total_pressure" ∨ ui.locked_param = "c2h2_pp"
  · rcases h1 with h1 | h1
    · rw [update_mode_tp st ui (Or.inl h1)]
      rw [update_mode_tp _ _ (Or.inl (by simp [CVDState.update_ui, h1]))]
      simp [CVDState.update_ui, readTarget, hf, ha, hpc, h1, htgt]
    · rw [update_mode_tp st ui (Or.inr h1)]
      rw [update_mode_tp _ _ (Or.inr (by simp [CVDState.update_ui, h1]))]
      obtain ⟨hfp, hap, htgtp⟩ := hmode h1
      have hcomp : compute_c2h2_pp ui.c2h2_flow_slider ui.ar_flow_slider
          (solve_total_pressure ui.c2h2_flow_slider ui.ar_flow_slider
            ui.contaminant_pp_slider (readTarget ui)) ui.contaminant_pp_slider
          = readTarget ui := compute_after_solve _ _ _ _ hfp hap htgtp
      simp only [readTarget] at hcomp
      simp [CVDState.update_ui, readTarget, hf, ha, hpc, h1, hcomp, htgt]
  · obtain ⟨h1a, h1b⟩ := not_or.mp h1
    by_cases h2 : ui.locked_param = "c2h2_flow"
    · rw [update_mode_c2h2_flow st ui h2,
        update_mode_c2h2_flow _ _ (by simp [CVDState.update_ui, h2])]
      simp [CVDState.update_ui, readTarget, ha, htp, hpc, h2, htgt]
    · by_cases h3 : ui.locked_param = "ar_flow"
      · rw [update_mode_ar_flow st ui h3,
          update_mode_ar_flow _ _ (by simp [CVDState.update_ui, h3])]
        simp [CVDState.update_ui, readTarget, hf, htp, hpc, h3, htgt]
      · rw [update_mode_other st ui h1a h1b h2 h3]
        rw [update_mode_other _ _ (by simp [CVDState.update_ui, h1a])
          (by simp [CVDState.update_ui, h1b]) (by simp [CVDState.update_ui, h2])
          (by simp [CVDState.update_ui, h3])]
        simp [CVDState.update_ui, readTarget, hf, ha, htp, hpc, htgt, h1b]

/-- Witness for `update_idempotent_on_representable_inputs` at the
representable controls `uiBasic`. -/
theorem update_idempotent_on_representable_inputs_witness :
    (step (step stDefault uiBasic).1 (step stDefault uiBasic).2).1 = (step stDefault uiBasic).1 :=
  update_idempotent_on_representable_inputs stDefault uiBasic
    (by norm_num [uiBasic, formatFixed, roundHalfEven])
    (by norm_num [uiBasic, formatFixed, roundHalfEven])
    (by norm_num [uiBasic, formatFixed, roundHalfEven])
    (by norm_num [uiBasic, formatFixed, roundHalfEven])
    (by norm_num [uiBasic, readTarget, formatFixed, roundHalfEven])
    (fun h => absurd h (by simp [uiBasic]))

/-- Claim C6: `solve_c2h2_flow` returns `0` whenever `target_pp ≤ 0` or
`process_pressure ≤ target_pp`, and `solve_ar_flow` returns `0` unless
`flow_c2h2 > 0`, `target_pp > 0` and `process_pressure > target_pp`. -/
theorem flow_solvers_guard_to_zero (pt pc a f tgt : ℚ) :
    (tgt ≤ 0 ∨ pt - pc ≤ tgt → solve_c2h2_flow pt pc a tgt = 0) ∧
    (¬(0 < f ∧ 0 < tgt ∧ tgt < pt - pc) → solve_ar_flow f pt pc tgt = 0) := by
  constructor
  · intro h
    simp only [solve_c2h2_flow]
    rw [if_neg]
    rintro ⟨h1, h2⟩
    rcases h with h | h
    · exact absurd h1 (not_lt.mpr h)
    · exact absurd h2 (not_lt.mpr h)
  · intro h
    simp only [solve_ar_flow]
    rw [if_neg]
    exact fun hc => h ⟨hc.1, hc.2.1, hc.2.2⟩

/-- Witness for `flow_solvers_guard_to_zero` at
`p_total = 1, p_contam = 0, flow_ar = 5, flow_c2h2 = 0, target_pp = 2`. -/
theorem flow_solvers_guard_to_zero_witness :
    solve_c2h2_flow 1 0 5 2 = 0 ∧ solve_ar_flow 0 1 0 2 = 0 :=
  ⟨(flow_solvers_guard_to_zero 1 0 5 0 2).1 (by norm_num),
   (flow_solvers_guard_to_zero 1 0 5 0 2).2 (by norm_num)⟩

/-- Claim C7: `solve_total_pressure` returns exactly `p_contam` whenever
`flow_c2h2 ≤ 0` or `target_pp ≤ 0`; in particular an update in
`"total_pressure"` mode with zero acetylene flow, target `0.25` and
contaminant `0.02` sets `total_pressure = 0.02`. -/
theorem solve_total_pressure_contaminant_floor (f a pc tgt : ℚ) (st : CVDState) (ui : UIControls) :
    (f ≤ 0 ∨ tgt ≤ 0 → solve_total_pressure f a pc tgt = pc) ∧
    (ui.locked_param = "total_pressure" → ui.c2h2_flow_slider = 0 →
      readTarget ui = 0.25 → ui.contaminant_pp_slider = 0.02 →
      (st.update_simulation ui).total_pressure = 0.02) := by
  constructor
  · intro h
    apply solve_tp_floor
    rintro ⟨h1, h2⟩
    rcases h with h | h
    · exact absurd h1 (not_lt.mpr h)
    · exact absurd h2 (not_lt.mpr h)
  · intro hm hf htgt hpc
    rw [update_mode_tp st ui (Or.inl hm)]
    show solve_total_pressure ui.c2h2_flow_slider ui.ar_flow_slider
      ui.contaminant_pp_slider (readTarget ui) = 0.02
    rw [hf, htgt, hpc, solve_tp_floor]
    norm_num

/-- Witness for `solve_total_pressure_contaminant_floor`: the floor branch at
`flow_c2h2 = 0`, and the end-to-end zero-flow scenario at `uiZeroFlow`. -/
theorem solve_total_pressure_contaminant_floor_witness :
    solve_total_pressure 0 50 (1/50) (1/4) = 1/50 ∧
      (stDefault.update_simulation uiZeroFlow).total_pressure = 0.02 :=
  ⟨(solve_total_pressure_contaminant_floor 0 50 (1/50) (1/4) stDefault uiZeroFlow).1
      (by norm_num),
   (solve_total_pressure_contaminant_floor 0 50 (1/50) (1/4) stDefault uiZeroFlow).2 rfl rfl
      (by norm_num [readTarget, uiZeroFlow]) rfl⟩

/-- Claim C8: after every update the curve has exactly 50 samples, the `i`-th
argon-flow sample is spaced linearly over `[max(ar_min, 1), ar_max]`, and its
dependent value is `solve_total_pressure` of the current acetylene flow, the
sample, the contaminant and the target partial pressure — including the
contaminant-floor fallback. -/
theorem update_graph_sweep_spec (st : CVDState) (ui : UIControls) :
    ((st.update_simulation ui).update_graph ui).length = 50 ∧
    ∀ i : ℕ, i < 50 →
      ((st.update_simulation ui).update_graph ui)[i]? =
        some (max ui.ar_min 1 + (ui.ar_max - max ui.ar_min 1) * i / 49,
          solve_total_pressure (st.update_simulation ui).c2h2_flow
            (max ui.ar_min 1 + (ui.ar_max - max ui.ar_min 1) * i / 49)
            (st.update_simulation ui).contaminant_pp
            (st.update_simulation ui).target_c2h2_pp) := by
  constructor
  · simp only [CVDState.update_graph, np_linspace, List.length_map, List.length_range]
  · intro i hi
    simp only [CVDState.update_graph, np_linspace]
    rw [List.getElem?_map, List.getElem?_map, List.getElem?_range hi, Option.map_some',
      Option.map_some']
    simp only [solve_total_pressure]
    norm_num

/-- Witness for `update_graph_sweep_spec` at `uiBasic`, sample `i = 0`. -/
theorem update_graph_sweep_spec_witness :
    ((stDefault.update_simulation uiBasic).update_graph uiBasic).length = 50 ∧
      ((stDefault.update_simulation uiBasic).update_graph uiBasic)[0]? =
        some (max uiBasic.ar_min 1 + (uiBasic.ar_max - max uiBasic.ar_min 1) * ((0:ℕ):ℚ) / 49,
          solve_total_pressure (stDefault.update_simulation uiBasic).c2h2_flow
            (max uiBasic.ar_min 1 + (uiBasic.ar_max - max uiBasic.ar_min 1) * ((0:ℕ):ℚ) / 49)
            (stDefault.update_simulation uiBasic).contaminant_pp
            (stDefault.update_simulation uiBasic).target_c2h2_pp) :=
  ⟨(update_graph_sweep_spec stDefault uiBasic).1,
   (update_graph_sweep_spec stDefault uiBasic).2 0 (by norm_num)⟩

/-- Claim C9, counterexample: the controls are read without clamping, so an
update fed a negative contaminant partial pressure stores a negative quantity
— non-negativity does not hold for every sequence of control inputs. -/
theorem nonneg_invariant_fails_on_negative_input :
    (stDefault.update_simulation uiNegContam).contaminant_pp < 0 := by
  rw [update_mode_tp _ _ (Or.inl rfl)]
  norm_num [uiNegContam]

/-- Claim C9, amended: when every control value read by the update is
non-negative, every stored quantity after the update is non-negative, in all
modes (the solvers still do not enforce `total_pressure ≥ contaminant_pp`). -/
theorem nonneg_invariant_for_nonneg_inputs (st : CVDState) (ui : UIControls)
    (hf : 0 ≤ ui.c2h2_flow_slider) (ha : 0 ≤ ui.ar_flow_slider)
    (htp : 0 ≤ ui.total_pressure_slider) (hpc : 0 ≤ ui.contaminant_pp_slider)
    (htgt : 0 ≤ readTarget ui) :
    0 ≤ (st.update_simulation ui).c2h2_flow ∧
    0 ≤ (st.update_simulation ui).ar_flow ∧
    0 ≤ (st.update_simulation ui).total_pressure ∧
    0 ≤ (st.update_simulation ui).contaminant_pp ∧
    0 ≤ (st.update_simulation ui).target_c2h2_pp ∧
    0 ≤ (st.update_simulation ui).c2h2_pp := by
  by_cases h1 : ui.locked_param = "total_pressure" ∨ ui.locked_param = "c2h2_pp"
  · rw [update_mode_tp st ui h1]
    exact ⟨hf, ha, solve_tp_nonneg _ _ _ _ ha hpc, hpc, htgt, compute_nonneg _ _ _ _ hf⟩
  · obtain ⟨h1a, h1b⟩ := not_or.mp h1
    by_cases h2 : ui.locked_param = "c2h2_flow"
    · rw [update_mode_c2h2_flow st ui h2]
      exact ⟨solve_c2h2_nonneg _ _ _ _ ha, ha, htp, hpc, htgt,
        compute_nonneg _ _ _ _ (solve_c2h2_nonneg _ _ _ _ ha)⟩
    · by_cases h3 : ui.locked_param = "ar_flow"
      · rw [update_mode_ar_flow st ui h3]
        exact ⟨hf, solve_ar_nonneg _ _ _ _, htp, hpc, htgt, compute_nonneg _ _ _ _ hf⟩
      · rw [update_mode_other st ui h1a h1b h2 h3]
        exact ⟨hf, ha, htp, hpc, htgt, compute_nonneg _ _ _ _ hf⟩

/-- Witness for `nonneg_invariant_for_nonneg_inputs` at `uiBasic`. -/
theorem nonneg_invariant_for_nonneg_inputs_witness :
    0 ≤ (stDefault.update_simulation uiBasic).c2h2_flow ∧
    0 ≤ (stDefault.update_simulation uiBasic).ar_flow ∧
    0 ≤ (stDefault.update_simulation uiBasic).total_pressure ∧
    0 ≤ (stDefault.update_simulation uiBasic).contaminant_pp ∧
    0 ≤ (stDefault.update_simulation uiBasic).target_c2h2_pp ∧
    0 ≤ (stDefault.update_simulation uiBasic).c2h2_pp :=
  nonneg_invariant_for_nonneg_inputs stDefault uiBasic (by norm_num [uiBasic])
    (by norm_num [uiBasic]) (by norm_num [uiBasic]) (by norm_num [uiBasic])
    (by norm_num [uiBasic, readTarget])

/-- Claim C10: for non-negative argon flow, `solve_total_pressure` is bounded
below by the contaminant partial pressure — exactly the contaminant on the
guarded branch and at least `target_pp + p_contam` otherwise — so after an
update in `"total_pressure"` or `"c2h2_pp"` mode with non-negative argon flow
the process pressure is non-negative. -/
theorem solve_total_pressure_lower_bound (f a pc tgt : ℚ) (st : CVDState) (ui : UIControls) (ha : 0 ≤ a) :
    pc ≤ solve_total_pressure f a pc tgt ∧
    (¬(0 < f ∧ 0 < tgt) → solve_total_pressure f a pc tgt = pc) ∧
    (0 < f ∧ 0 < tgt → tgt + pc ≤ solve_total_pressure f a pc tgt) ∧
    (0 ≤ ui.ar_flow_slider →
      ui.locked_param = "total_pressure" ∨ ui.locked_param = "c2h2_pp" →
      0 ≤ (st.update_simulation ui).total_pressure -
        (st.update_simulation ui).contaminant_pp) := by
  refine ⟨?_, solve_tp_floor f a pc tgt, fun h => solve_tp_lower f a pc tgt ha h.1 h.2, ?_⟩
  · by_cases h : 0 < f ∧ 0 < tgt
    · have := solve_tp_lower f a pc tgt ha h.1 h.2
      linarith [h.2]
    · rw [solve_tp_floor f a pc tgt h]
  · intro har hm
    rw [update_mode_tp st ui hm]
    show 0 ≤ solve_total_pressure ui.c2h2_flow_slider ui.ar_flow_slider
      ui.contaminant_pp_slider (readTarget ui) - ui.contaminant_pp_slider
    by_cases h : 0 < ui.c2h2_flow_slider ∧ 0 < readTarget ui
    · have := solve_tp_lower ui.c2h2_flow_slider ui.ar_flow_slider
        ui.contaminant_pp_slider (readTarget ui) har h.1 h.2
      linarith [h.2]
    · rw [solve_tp_floor _ _ _ _ h]
      simp

/-- Witness for `solve_total_pressure_lower_bound` at
`flow_c2h2 = 5, flow_ar = 45, p_contam = 1/100, target_pp = 1/4` and the
controls `uiBasic`. -/
theorem solve_total_pressure_lower_bound_witness :
    (1:ℚ)/100 ≤ solve_total_pressure 5 45 (1/100) (1/4) ∧
      (1:ℚ)/4 + 1/100 ≤ solve_total_pressure 5 45 (1/100) (1/4) ∧
      0 ≤ (stDefault.update_simulation uiBasic).total_pressure -
        (stDefault.update_simulation uiBasic).contaminant_pp :=
  ⟨(solve_total_pressure_lower_bound 5 45 (1/100) (1/4) stDefault uiBasic (by norm_num)).1,
   (solve_total_pressure_lower_bound 5 45 (1/100) (1/4) stDefault uiBasic (by norm_num)).2.2.1
     (by norm_num),
   (solve_total_pressure_lower_bound 5 45 (1/100) (1/4) stDefault uiBasic (by norm_num)).2.2.2
     (by norm_num [uiBasic]) (Or.inl rfl)⟩
